import Mathlib

/-!
Shallow embedding of `sporacle` (files `sporacle.py` and `oracle_test.py`):
an AOI (area of interest) loader with buffer caching, and an Oracle spatial
query client (`OracleSpatialQueries`).

Modelling conventions:
* Python exceptions become an explicit `PyErr` value in an `Except` result.
* The geometry library (geopandas/shapely) and the database's spatial SQL
  evaluation are external collaborators; their primitive operations are
  abstracted into a `GeoLib` record of functions, passed explicitly, so all
  definitions stay executable and can be instantiated concretely.
* Well-known-binary round trips losslessly, so a WKB payload is modelled by
  the geometry value it encodes.
* Distances and areas (Python floats) are modelled by `Int`.
* A Python dict is modelled by an association list with first-match lookup.
* Calls that issue a catalog query are instrumented with a `Nat` counting
  the catalog queries issued during the call, so memoization claims can be
  stated.
-/

namespace Sporacle

/-- Python-level errors surfaced by the embedded operations. -/
inductive PyErr where
  | exc (msg : String)            -- `raise Exception(msg)`
  | valueError (msg : String)     -- e.g. unpacking failure of `a, b = s.split(".")`
  | nameError (msg : String)      -- reference to an unbound local name
  | typeError (msg : String)      -- e.g. `None[0]`
  | indexError (msg : String)     -- e.g. `.iloc[0]` on an empty frame
  | attributeError (msg : String) -- e.g. attribute access on `None`
  deriving Repr, DecidableEq

/-- A loaded geometry dataset (a geopandas GeoDataFrame as the AOI loader
sees it): a coordinate reference system given by its EPSG code, and the
geometry column. -/
structure Dataset (Geom : Type) where
  crs : Int
  geoms : List Geom
  deriving Repr, DecidableEq

/-- A geometry-aware tabular result (a geopandas GeoDataFrame built by the
query client): column names, rows of attribute values paired with the decoded
geometry, and the spatial reference tag. -/
structure GDF (Geom : Type) where
  colNames : List String
  rows : List (List String × Geom)
  crs : Int
  deriving Repr, DecidableEq

/-- One column of an Oracle catalog entry. -/
structure Column where
  column_name : String
  data_type : String
  deriving Repr, DecidableEq

/-- One row of a database table: the attribute values of its non-geometry
columns (in catalog order, excluding `SE_ANNO_CAD_DATA`), and its geometry. -/
structure DbRow (Geom : Type) where
  attrs : List String
  geom : Geom
  deriving Repr, DecidableEq

/-- A table (or view) of the remote database, together with its catalog
entry. -/
structure DbTable (Geom : Type) where
  owner : String
  name : String
  columns : List Column
  rows : List (DbRow Geom)
  deriving Repr, DecidableEq

/-- The remote database: its catalog objects (tables and views). -/
structure Db (Geom : Type) where
  tables : List (DbTable Geom)
  deriving Repr, DecidableEq

/-- Resolve a (owner, name) pair in the catalog. -/
def Db.lookupTable {Geom : Type} (db : Db Geom) (owner name : String) :
    Option (DbTable Geom) :=
  db.tables.find? (fun t => t.owner == owner && t.name == name)

/-- The external geometry/spatial primitives the code delegates to:
shapely buffering and areas, SDO_RELATE with mask=ANYINTERACT,
SDO_GEOM.SDO_INTERSECTION, and geopandas overlay. -/
structure GeoLib (Geom Buf : Type) where
  /-- `df.exterior.buffer(d, single_sided=True)` -/
  exteriorBuffer : Dataset Geom → Int → Buf
  /-- `float(b.area)` -/
  area : Buf → Int
  /-- the geometry content of a buffer series (`b.to_wkb().iloc[0]` decoded,
  or the geometry column of `gpd.GeoDataFrame(b)`) -/
  bufGeom : Buf → Geom
  /-- `SDO_RELATE(g1, g2, 'mask=ANYINTERACT') = 'TRUE'` -/
  anyinteract : Geom → Geom → Bool
  /-- `sdo_geom.sdo_intersection(g1, g2, 1)` -/
  sdoIntersection : Geom → Geom → Geom
  /-- `df1.overlay(right=df2, how="intersection")` -/
  overlay : GDF Geom → GDF Geom → GDF Geom

/-- The fixed spatial reference (`Aoi.EPSG`). -/
def EPSG : Int := 3005

/-- Modelled from the geometry library's interface (spec section 6):
`df.to_crs(f"EPSG:{e}")` reprojects every geometry from the dataset's
reference into the target reference `e` and tags the result with `e`;
`reproj src tgt` is the per-geometry coordinate transformation. -/
def Dataset.to_crs {Geom : Type} (reproj : Int → Int → Geom → Geom)
    (d : Dataset Geom) (e : Int) : Dataset Geom :=
  { crs := e, geoms := d.geoms.map (reproj d.crs e) }

/-- The state of an `Aoi` object: the stored dataset `self.df` and the
buffer cache `self.buffers` (a dict keyed by the requested distance). -/
structure AoiState (Geom Buf : Type) where
  df : Dataset Geom
  buffers : List (Int × Buf)
  deriving Repr, DecidableEq

/-- `Aoi.__init__`: keep the loaded dataset when its EPSG code equals the
fixed one, otherwise reproject; start with an empty buffer cache. -/
def Aoi.init {Geom Buf : Type} (reproj : Int → Int → Geom → Geom)
    (df : Dataset Geom) : AoiState Geom Buf :=
  if EPSG = df.crs then
    { df := df, buffers := [] }
  else
    { df := Dataset.to_crs reproj df EPSG, buffers := [] }

/-- `Aoi.get_wkb_geom`: the WKB of the first geometry
(`self.df["geometry"].to_wkb().iloc[0]`); `.iloc[0]` on an empty frame
raises. -/
def AoiState.get_wkb_geom {Geom Buf : Type} (a : AoiState Geom Buf) :
    Except PyErr Geom :=
  match a.df.geoms with
  | [] => .error (.indexError "single positional indexer is out-of-bounds")
  | g :: _ => .ok g

/-- The fresh-computation path of `Aoi.get_outisde_buffer`: buffer the
exterior by `distance` and by `distance*-1` (both single-sided) and keep
whichever has the larger area (ties go to the second). -/
def fresh_buffer {Geom Buf : Type} (lib : GeoLib Geom Buf)
    (df : Dataset Geom) (distance : Int) : Buf :=
  let b1 := lib.exteriorBuffer df distance
  let b2 := lib.exteriorBuffer df (distance * -1)
  if lib.area b1 > lib.area b2 then b1 else b2

/-- `Aoi.get_outisde_buffer`: return the cached buffer when the distance is
already a key of `self.buffers`, otherwise compute both single-sided
exterior buffers, keep the one with larger area, and cache it under the
requested distance. The `Nat` counts the buffer computations performed by
the call (0 on a cache hit, 2 on a miss). -/
def get_outisde_buffer {Geom Buf : Type} (lib : GeoLib Geom Buf)
    (a : AoiState Geom Buf) (distance : Int) :
    Buf × AoiState Geom Buf × Nat :=
  match a.buffers.lookup distance with
  | some b => (b, a, 0)
  | none =>
    let b := fresh_buffer lib a.df distance
    (b, { a with buffers := (distance, b) :: a.buffers }, 2)

/-- The mutable state of an `OracleSpatialQueries` instance: the attached
AOI (`self.aoi`, `None` until `add_aoi`) and the table registry
(`self.table_dict`, keys only — every stored value is the empty dict). -/
structure ClientState (Geom Buf : Type) where
  aoi : Option (AoiState Geom Buf)
  table_dict : List String
  deriving Repr, DecidableEq

/-- Split a character list at every `'.'`, keeping empty segments, as
Python's `str.split(".")` does (the empty string yields one empty segment). -/
def splitDot (cs : List Char) : List (List Char) :=
  match cs with
  | [] => [[]]
  | c :: rest =>
    let r := splitDot rest
    if c = '.' then [] :: r
    else
      match r with
      | [] => [[c]]
      | p :: ps => (c :: p) :: ps

/-- Python's `s.split(".")`. -/
def pySplit (s : String) : List String :=
  (splitDot s.data).map List.asString

/-- Python's `owner, table = db_table.split(".")`: succeeds exactly when the
split yields two parts, otherwise raises `ValueError` (an unpacking error). -/
def split2 (db_table : String) : Except PyErr (String × String) :=
  match pySplit db_table with
  | [a, b] => .ok (a, b)
  | parts =>
    if parts.length < 2 then
      .error (.valueError ("not enough values to unpack (expected 2, got "
        ++ toString parts.length ++ ")"))
    else
      .error (.valueError "too many values to unpack (expected 2)")

/-- The catalog count computed by `has_table`'s query: the sum of the
matching object counts over `all_views` and `all_tables`. -/
def catalogCount {Geom : Type} (db : Db Geom) (owner table : String) : Nat :=
  (db.tables.filter (fun t => t.owner == owner && t.name == table)).length

/-- `OracleSpatialQueries.has_table`: return true straight from the registry
when the name is a known key; otherwise unpack `owner, table`, issue the
catalog count query, and on a positive count record the name in the registry
and return true, else return false. The `Nat` counts the catalog queries
issued by the call. -/
def has_table {Geom Buf : Type} (db : Db Geom) (st : ClientState Geom Buf)
    (db_table : String) :
    Except PyErr (Bool × ClientState Geom Buf) × Nat :=
  if db_table ∈ st.table_dict then
    (.ok (true, st), 0)
  else
    match split2 db_table with
    | .error e => (.error e, 0)
    | .ok (owner, table) =>
      if catalogCount db owner table > 0 then
        (.ok (true, { st with table_dict := db_table :: st.table_dict }), 1)
      else
        (.ok (false, st), 1)

/-- `OracleSpatialQueries.get_bcgw_geomcolumn`: guard on `has_table` — note
that the guard's message `f"Table {table} does not exist for this user"`
refers to the local name `table`, which is only bound by the split below the
raise, so the raise itself fails with `NameError`; then fetch the first
catalog column of declared type `SDO_GEOMETRY` (`fetchone()` yielding no row
makes `q[0]` raise `TypeError`). -/
def get_bcgw_geomcolumn {Geom Buf : Type} (db : Db Geom)
    (st : ClientState Geom Buf) (db_table : String) :
    Except PyErr (String × ClientState Geom Buf) :=
  match has_table db st db_table with
  | (.error e, _) => .error e
  | (.ok (ht, st1), _) =>
    if ht = false then
      .error (.nameError "name 'table' is not defined")
    else
      match split2 db_table with
      | .error e => .error e
      | .ok (owner, table) =>
        match Db.lookupTable db owner table with
        | none => .error (.typeError "'NoneType' object is not subscriptable")
        | some t =>
          match (t.columns.filter (fun c => c.data_type == "SDO_GEOMETRY")).head? with
          | none => .error (.typeError "'NoneType' object is not subscriptable")
          | some c => .ok (c.column_name, st1)

/-- `OracleSpatialQueries.get_bcgw_columns`: same (broken) guard as
`get_bcgw_geomcolumn`, then fetch all catalog column names of the table
except `SE_ANNO_CAD_DATA` (an absent table simply yields an empty fetch). -/
def get_bcgw_columns {Geom Buf : Type} (db : Db Geom)
    (st : ClientState Geom Buf) (db_table : String) :
    Except PyErr (List String × ClientState Geom Buf) :=
  match has_table db st db_table with
  | (.error e, _) => .error e
  | (.ok (ht, st1), _) =>
    if ht = false then
      .error (.nameError "name 'table' is not defined")
    else
      match split2 db_table with
      | .error e => .error e
      | .ok (owner, table) =>
        let cols :=
          match Db.lookupTable db owner table with
          | none => []
          | some t =>
            (t.columns.filter (fun c => c.column_name != "SE_ANNO_CAD_DATA")).map
              (fun c => c.column_name)
        .ok (cols, st1)

/-- Apply an optional caller-supplied filter fragment (`dfn_query`), modelled
semantically as a row predicate; absent means no extra conjunct. -/
def dfnApply {Geom : Type} (dfn : Option (DbRow Geom → Bool))
    (r : DbRow Geom) : Bool :=
  match dfn with
  | none => true
  | some p => p r

/-- Database-side evaluation of the spatial relate queries: resolve the
interpolated `OWNER.TABLE` name, then keep the rows whose geometry has mask
ANYINTERACT with the bound geometry and that satisfy the filter fragment. -/
def execRelate {Geom Buf : Type} (lib : GeoLib Geom Buf) (db : Db Geom)
    (qualified : String) (g : Geom) (dfn : Option (DbRow Geom → Bool)) :
    Except PyErr (List (DbRow Geom)) :=
  match split2 qualified with
  | .error e => .error e
  | .ok (owner, name) =>
    match Db.lookupTable db owner name with
    | none => .error (.exc "ORA-00942: table or view does not exist")
    | some t =>
      .ok (t.rows.filter (fun r => lib.anyinteract r.geom g && dfnApply dfn r))

/-- The geometry bound as `:wkb`: the AOI's own WKB when no buffer distance
is given, otherwise the WKB of the (possibly cached) outside buffer; buffer
computation updates the AOI's cache. -/
def queryGeom {Geom Buf : Type} (lib : GeoLib Geom Buf)
    (a : AoiState Geom Buf) (buffer : Option Int) :
    Except PyErr (Geom × AoiState Geom Buf) :=
  match buffer with
  | none =>
    match a.get_wkb_geom with
    | .error e => .error e
    | .ok g => .ok (g, a)
  | some d =>
    let (b, a1, _) := get_outisde_buffer lib a d
    .ok (lib.bufGeom b, a1)

/-- `OracleSpatialQueries.has_relate` (guarded variant): raise a descriptive
error when `has_table` is false; resolve the geometry column; run the
`ROWNUM=1`-limited relate query against the AOI WKB (or the buffer ring's
WKB); return whether `fetchone` produced a row. -/
def has_relate {Geom Buf : Type} (lib : GeoLib Geom Buf) (db : Db Geom)
    (st : ClientState Geom Buf) (table : String)
    (dfn_query : Option (DbRow Geom → Bool)) (buffer : Option Int) :
    Except PyErr (Bool × ClientState Geom Buf) :=
  match has_table db st table with
  | (.error e, _) => .error e
  | (.ok (ht, st1), _) =>
    if ht = false then
      .error (.exc ("Table " ++ table ++ " does not exist for this user"))
    else
      match get_bcgw_geomcolumn db st1 table with
      | .error e => .error e
      | .ok (_, st2) =>
        match st2.aoi with
        | none => .error (.attributeError "'NoneType' object has no attribute 'get_wkb_geom'")
        | some a =>
          match queryGeom lib a buffer with
          | .error e => .error e
          | .ok (g, a1) =>
            match execRelate lib db table g dfn_query with
            | .error e => .error e
            | .ok hits =>
              .ok (hits.head?.isSome, { st2 with aoi := some a1 })

/-- Python's `list.remove(x)`: drop the first occurrence, `ValueError` when
absent. -/
def listRemove (xs : List String) (x : String) :
    Except PyErr (List String) :=
  if x ∈ xs then .ok (xs.erase x) else .error (.valueError "list.remove(x): x not in list")

/-- `OracleSpatialQueries.get_related` (guarded variant): guard, resolve the
geometry column and the remaining columns, fetch every row satisfying the
relate predicate (and filter), and wrap the rows into a geometry-aware frame
tagged with the AOI's EPSG (`fetchall` never yields `None`, so the frame is
always built, possibly with zero rows). -/
def get_related {Geom Buf : Type} (lib : GeoLib Geom Buf) (db : Db Geom)
    (st : ClientState Geom Buf) (table : String)
    (dfn_query : Option (DbRow Geom → Bool)) (buffer : Option Int) :
    Except PyErr (Option (GDF Geom) × ClientState Geom Buf) :=
  match has_table db st table with
  | (.error e, _) => .error e
  | (.ok (ht, st1), _) =>
    if ht = false then
      .error (.exc ("Table " ++ table ++ " does not exist for this user"))
    else
      match get_bcgw_geomcolumn db st1 table with
      | .error e => .error e
      | .ok (geom_column, st2) =>
        match get_bcgw_columns db st2 table with
        | .error e => .error e
        | .ok (all_columns0, st3) =>
          match listRemove all_columns0 geom_column with
          | .error e => .error e
          | .ok all_columns =>
            match st3.aoi with
            | none => .error (.attributeError "'NoneType' object has no attribute 'get_wkb_geom'")
            | some a =>
              match queryGeom lib a buffer with
              | .error e => .error e
              | .ok (g, a1) =>
                match execRelate lib db table g dfn_query with
                | .error e => .error e
                | .ok rows =>
                  let gdf : GDF Geom :=
                    { colNames := all_columns ++ ["wkb_geom"],
                      rows := rows.map (fun r => (r.attrs, r.geom)),
                      crs := EPSG }
                  .ok (some gdf, { st3 with aoi := some a1 })

/-- `OracleSpatialQueries.get_intersecting` (guarded variant): as
`get_related`, but each returned geometry is the database-computed
intersection of the row's geometry with the bound geometry. -/
def get_intersecting {Geom Buf : Type} (lib : GeoLib Geom Buf) (db : Db Geom)
    (st : ClientState Geom Buf) (table : String)
    (dfn_query : Option (DbRow Geom → Bool)) (buffer : Option Int) :
    Except PyErr (Option (GDF Geom) × ClientState Geom Buf) :=
  match has_table db st table with
  | (.error e, _) => .error e
  | (.ok (ht, st1), _) =>
    if ht = false then
      .error (.exc ("Table " ++ table ++ " does not exist for this user"))
    else
      match get_bcgw_geomcolumn db st1 table with
      | .error e => .error e
      | .ok (geom_column, st2) =>
        match get_bcgw_columns db st2 table with
        | .error e => .error e
        | .ok (all_columns0, st3) =>
          match listRemove all_columns0 geom_column with
          | .error e => .error e
          | .ok all_columns =>
            match st3.aoi with
            | none => .error (.attributeError "'NoneType' object has no attribute 'get_wkb_geom'")
            | some a =>
              match queryGeom lib a buffer with
              | .error e => .error e
              | .ok (g, a1) =>
                match execRelate lib db table g dfn_query with
                | .error e => .error e
                | .ok rows =>
                  let gdf : GDF Geom :=
                    { colNames := all_columns ++ ["wkb_geom"],
                      rows := rows.map (fun r => (r.attrs, lib.sdoIntersection r.geom g)),
                      crs := EPSG }
                  .ok (some gdf, { st3 with aoi := some a1 })

/-- The AOI's own dataset viewed as the right-hand frame of the client-side
overlay (`self.aoi.df`). -/
def aoiGdf {Geom Buf : Type} (a : AoiState Geom Buf) : GDF Geom :=
  { colNames := ["geometry"],
    rows := a.df.geoms.map (fun g => ([], g)),
    crs := a.df.crs }

/-- The buffer ring reshaped into a one-row geometry frame
(`gpd.GeoDataFrame(buffer).rename(columns={0:'geometry'}).set_geometry(...)`). -/
def bufferGdf {Geom Buf : Type} (lib : GeoLib Geom Buf) (b : Buf) : GDF Geom :=
  { colNames := ["geometry"],
    rows := [([], lib.bufGeom b)],
    crs := EPSG }

/-- `OracleSpatialQueries.get_intersect_local`: gate on `has_relate` (called
without the buffer argument, as in the source); when related, fetch the
related rows and overlay them client-side with the AOI frame, or with the
buffer ring reshaped into a one-row geometry frame when a buffer distance is
supplied; otherwise return `None` — in the state left by the `has_relate`
call, whose inner `has_table` may have registered the table. -/
def get_intersect_local {Geom Buf : Type} (lib : GeoLib Geom Buf)
    (db : Db Geom) (st : ClientState Geom Buf) (table : String)
    (dfn_query : Option (DbRow Geom → Bool)) (buffer : Option Int) :
    Except PyErr (Option (GDF Geom) × ClientState Geom Buf) :=
  match has_relate lib db st table dfn_query none with
  | .error e => .error e
  | .ok (hr, st1) =>
    if hr then
      match get_related lib db st1 table dfn_query buffer with
      | .error e => .error e
      | .ok (none, _) => .error (.attributeError "'NoneType' object has no attribute 'overlay'")
      | .ok (some df1, st2) =>
        match buffer with
        | none =>
          match st2.aoi with
          | none => .error (.attributeError "'NoneType' object has no attribute 'df'")
          | some a => .ok (some (lib.overlay df1 (aoiGdf a)), st2)
        | some d =>
          match st2.aoi with
          | none => .error (.attributeError "'NoneType' object has no attribute 'get_outisde_buffer'")
          | some a =>
            let (b, a1, _) := get_outisde_buffer lib a d
            .ok (some (lib.overlay df1 (bufferGdf lib b)), { st2 with aoi := some a1 })
    else
      .ok (none, st1)

/-! ### SQL text construction

The exact strings the client builds (the f-strings of the source) together
with the bind-parameter dictionaries passed to `cursor.execute`, modelled
separately from the semantic evaluation above so that the interpolation /
parameterization policy can be stated. -/

/-- A value passed in the bind dictionary of `cursor.execute`. -/
inductive BindVal (Geom : Type) where
  | wkbVal (g : Geom)
  | intVal (n : Int)
  | strVal (s : String)
  deriving Repr, DecidableEq

/-- A built SQL statement: its text and its named bind parameters. -/
structure SqlStmt (Geom : Type) where
  text : String
  binds : List (String × BindVal Geom)
  deriving Repr, DecidableEq

/-- The statement built by `has_relate`. -/
def has_relate_stmt {Geom : Type} (table geom_column : String)
    (dfn_query : Option String) (wkb : Geom) (srid : Int) : SqlStmt Geom :=
  let base := "SELECT ROWNUM FROM " ++ table ++ " WHERE SDO_RELATE ("
    ++ geom_column
    ++ ", SDO_GEOMETRY(:wkb,:srid),'mask=ANYINTERACT') = 'TRUE' and ROWNUM=1"
  { text :=
      match dfn_query with
      | none => base
      | some d => base ++ " AND " ++ d,
    binds := [("wkb", .wkbVal wkb), ("srid", .intVal srid)] }

/-- The statement built by `get_related`. -/
def get_related_stmt {Geom : Type} (table geom_column columns_str : String)
    (dfn_query : Option String) (wkb : Geom) (srid : Int) : SqlStmt Geom :=
  let base := "SELECT " ++ columns_str ++ ",sdo_util.to_wkbgeometry("
    ++ geom_column ++ ") wkb_geom FROM " ++ table ++ " b WHERE SDO_RELATE (b."
    ++ geom_column
    ++ ", SDO_GEOMETRY(:wkb,:srid),'mask=ANYINTERACT') = 'TRUE'"
  { text :=
      match dfn_query with
      | none => base
      | some d => base ++ " AND " ++ d,
    binds := [("wkb", .wkbVal wkb), ("srid", .intVal srid)] }

/-- The statement built by `get_intersecting` (triple-quoted in the source,
whitespace included; the filter fragment is appended as `AND {dfn_query}`
with no leading space). -/
def get_intersecting_stmt {Geom : Type} (table geom_column columns_str : String)
    (dfn_query : Option String) (wkb : Geom) (srid : Int) : SqlStmt Geom :=
  let base := "\n            SELECT \n                " ++ columns_str
    ++ ",sdo_util.to_wkbgeometry(sdo_geom.sdo_intersection(" ++ geom_column
    ++ ",  \n                SDO_GEOMETRY(:wkb,:srid), 1)) wkb_geom \n            FROM "
    ++ table
    ++ " \n            WHERE SDO_RELATE (" ++ geom_column
    ++ ", SDO_GEOMETRY(:wkb,:srid),'mask=ANYINTERACT') = 'TRUE'\n            "
  { text :=
      match dfn_query with
      | none => base
      | some d => base ++ ("AND " ++ d),
    binds := [("wkb", .wkbVal wkb), ("srid", .intVal srid)] }

/-- The statement built by `has_table` (executed with no bind dictionary). -/
def has_table_stmt {Geom : Type} (owner table : String) : SqlStmt Geom :=
  { text := "\n            SELECT SUM(OBJ_CNT) from (\n            SELECT count(ROWNUM) obj_cnt FROM all_views where owner = '"
      ++ owner ++ "' and view_name = '" ++ table
      ++ "' UNION\n            SELECT count(ROWNUM) obj_cnt FROM all_tables where owner = '"
      ++ owner ++ "' and table_name = '" ++ table ++ "')\n            ",
    binds := [] }

/-- The statement built by `get_bcgw_geomcolumn` (a backslash line
continuation in the source, executed with no bind dictionary). -/
def get_bcgw_geomcolumn_stmt {Geom : Type} (owner table : String) : SqlStmt Geom :=
  { text := "SELECT COLUMN_NAME from all_tab_columns where OWNER = '"
      ++ owner ++ "'             AND TABLE_NAME = '" ++ table
      ++ "' AND DATA_TYPE = 'SDO_GEOMETRY'",
    binds := [] }

/-- The statement built by `get_bcgw_columns`: the owner is passed through
the bind dictionary as `:owner`, while the table name is interpolated. -/
def get_bcgw_columns_stmt {Geom : Type} (owner table : String) : SqlStmt Geom :=
  { text := "\n            SELECT COLUMN_NAME from all_tab_columns \n            where OWNER = :owner\n                AND TABLE_NAME = '"
      ++ table ++ "'\n                AND COLUMN_NAME<>'SE_ANNO_CAD_DATA'",
    binds := [("owner", .strVal owner)] }

/-! ### Derived forms and helper lemmas -/

/-- The column names `get_bcgw_columns` reports for a catalog entry. -/
def tableCols {Geom : Type} (t : DbTable Geom) : List String :=
  (t.columns.filter (fun c => c.column_name != "SE_ANNO_CAD_DATA")).map
    (fun c => c.column_name)

/-- The state after a successful `has_table` check: the registry gains the
name unless it already holds it. -/
def registered {Geom Buf : Type} (st : ClientState Geom Buf)
    (db_table : String) : ClientState Geom Buf :=
  if db_table ∈ st.table_dict then st
  else { st with table_dict := db_table :: st.table_dict }

/-- The `ValueError` message of a failed `owner, table = s.split(".")`. -/
def unpackMsg (s : String) : String :=
  if (pySplit s).length < 2 then
    "not enough values to unpack (expected 2, got "
      ++ toString (pySplit s).length ++ ")"
  else
    "too many values to unpack (expected 2)"

/-- The frame `get_related` builds when the table resolves: the non-geometry
column names plus `wkb_geom`, one row per matching database row. -/
def relatedGdf {Geom Buf : Type} (lib : GeoLib Geom Buf) (t : DbTable Geom)
    (gcolName : String) (dfn : Option (DbRow Geom → Bool)) (g : Geom) :
    GDF Geom :=
  { colNames := (tableCols t).erase gcolName ++ ["wkb_geom"],
    rows := (t.rows.filter (fun r => lib.anyinteract r.geom g && dfnApply dfn r)).map
      (fun r => (r.attrs, r.geom)),
    crs := EPSG }

/-- The frame `get_intersecting` builds: as `relatedGdf` but every geometry
is the database-side intersection with the bound geometry. -/
def intersectingGdf {Geom Buf : Type} (lib : GeoLib Geom Buf) (t : DbTable Geom)
    (gcolName : String) (dfn : Option (DbRow Geom → Bool)) (g : Geom) :
    GDF Geom :=
  { colNames := (tableCols t).erase gcolName ++ ["wkb_geom"],
    rows := (t.rows.filter (fun r => lib.anyinteract r.geom g && dfnApply dfn r)).map
      (fun r => (r.attrs, lib.sdoIntersection r.geom g)),
    crs := EPSG }

/-! ### Concrete instances used to evaluate the embedding -/

/-- A concrete geometry library over `Geom := Nat`, `Buf := Int`: geometries
interact exactly when equal, a single-sided buffer is identified by its
signed distance, and its area is that signed distance. -/
def exLib : GeoLib Nat Int :=
  { exteriorBuffer := fun _ d => d,
    area := fun b => b,
    bufGeom := fun b => b.natAbs,
    anyinteract := fun g1 g2 => g1 == g2,
    sdoIntersection := fun g1 g2 => min g1 g2,
    overlay := fun d1 d2 =>
      { colNames := d1.colNames ++ d2.colNames,
        rows := d1.rows ++ d2.rows,
        crs := d1.crs } }

/-- A variant whose buffer areas depend only on the magnitude of the
distance, so the two single-sided buffers always tie on area while being
distinct objects. -/
def exLibTie : GeoLib Nat Int :=
  { exLib with area := fun b => b * b }

/-- A concrete catalog entry: table `W.T` with an `ID` column, a geometry
column `SHAPE`, the reserved annotation column, and two rows. -/
def exTable : DbTable Nat :=
  { owner := "W", name := "T",
    columns := [⟨"ID", "NUMBER"⟩, ⟨"SHAPE", "SDO_GEOMETRY"⟩,
                ⟨"SE_ANNO_CAD_DATA", "BLOB"⟩],
    rows := [⟨["r1"], 7⟩, ⟨["r2"], 9⟩] }

/-- A concrete database holding just `exTable`. -/
def exDb : Db Nat := ⟨[exTable]⟩

/-- A concrete AOI: already in EPSG:3005, one geometry, empty buffer cache. -/
def exAoi : AoiState Nat Int := { df := { crs := 3005, geoms := [7] }, buffers := [] }

/-- A fresh client state with `exAoi` attached and an empty registry. -/
def exSt : ClientState Nat Int := { aoi := some exAoi, table_dict := [] }

/-- `exSt` after `W.T` has been confirmed to exist. -/
def exSt1 : ClientState Nat Int := { aoi := some exAoi, table_dict := ["W.T"] }

theorem mem_registered {Geom Buf : Type} (st : ClientState Geom Buf)
    (q : String) : q ∈ (registered st q).table_dict := by
  unfold registered
  split
  · assumption
  · exact List.mem_cons_self _ _

theorem aoi_registered {Geom Buf : Type} (st : ClientState Geom Buf)
    (q : String) : (registered st q).aoi = st.aoi := by
  unfold registered
  split <;> rfl

theorem registered_of_mem {Geom Buf : Type} (st : ClientState Geom Buf)
    (q : String) (h : q ∈ st.table_dict) : registered st q = st := by
  unfold registered
  simp [h]

theorem registered_idem {Geom Buf : Type} (st : ClientState Geom Buf)
    (q : String) : registered (registered st q) q = registered st q :=
  registered_of_mem _ _ (mem_registered st q)

theorem split2_bad (s : String) (h : (pySplit s).length ≠ 2) :
    split2 s = .error (.valueError (unpackMsg s)) := by
  unfold split2 unpackMsg
  rcases hs : pySplit s with _ | ⟨a, _ | ⟨b, rest⟩⟩
  · simp [hs]
  · simp [hs]
  · cases rest with
    | nil => exact absurd (by simp [hs]) h
    | cons c cs =>
      have hlt : ¬ (cs.length + 1 + 1 + 1 < 2) := by omega
      simp [hs, hlt]

theorem catalogCount_pos {Geom : Type} (db : Db Geom) (owner name : String)
    (t : DbTable Geom) (h : db.lookupTable owner name = some t) :
    0 < catalogCount db owner name := by
  unfold Db.lookupTable at h
  have hmem := List.mem_of_find?_eq_some h
  have hp := List.find?_some h
  have : t ∈ db.tables.filter (fun u => u.owner == owner && u.name == name) :=
    List.mem_filter.mpr ⟨hmem, hp⟩
  unfold catalogCount
  exact List.length_pos.mpr (List.ne_nil_of_mem this)

theorem has_table_found {Geom Buf : Type} (db : Db Geom)
    (st : ClientState Geom Buf) (q owner name : String) (t : DbTable Geom)
    (hsplit : split2 q = .ok (owner, name))
    (hlook : db.lookupTable owner name = some t) :
    has_table db st q =
      (.ok (true, registered st q), if q ∈ st.table_dict then 0 else 1) := by
  unfold has_table registered
  by_cases hm : q ∈ st.table_dict
  · simp [hm]
  · simp [hm, hsplit, catalogCount_pos db owner name t hlook]

theorem get_bcgw_geomcolumn_found {Geom Buf : Type} (db : Db Geom)
    (st : ClientState Geom Buf) (q owner name : String) (t : DbTable Geom)
    (gcol : Column)
    (hsplit : split2 q = .ok (owner, name))
    (hlook : db.lookupTable owner name = some t)
    (hgcol : (t.columns.filter (fun c => c.data_type == "SDO_GEOMETRY")).head?
      = some gcol) :
    get_bcgw_geomcolumn db st q = .ok (gcol.column_name, registered st q) := by
  unfold get_bcgw_geomcolumn
  rw [has_table_found db st q owner name t hsplit hlook]
  simp [hsplit, hlook, hgcol]

theorem get_bcgw_columns_found {Geom Buf : Type} (db : Db Geom)
    (st : ClientState Geom Buf) (q owner name : String) (t : DbTable Geom)
    (hsplit : split2 q = .ok (owner, name))
    (hlook : db.lookupTable owner name = some t) :
    get_bcgw_columns db st q = .ok (tableCols t, registered st q) := by
  unfold get_bcgw_columns
  rw [has_table_found db st q owner name t hsplit hlook]
  simp [hsplit, hlook, tableCols]

theorem execRelate_found {Geom Buf : Type} (lib : GeoLib Geom Buf)
    (db : Db Geom) (q owner name : String) (t : DbTable Geom) (g : Geom)
    (dfn : Option (DbRow Geom → Bool))
    (hsplit : split2 q = .ok (owner, name))
    (hlook : db.lookupTable owner name = some t) :
    execRelate lib db q g dfn =
      .ok (t.rows.filter (fun r => lib.anyinteract r.geom g && dfnApply dfn r)) := by
  unfold execRelate
  simp [hsplit, hlook]

theorem filter_head_isSome {α : Type} (p : α → Bool) (l : List α) :
    (l.filter p).head?.isSome = l.any p := by
  induction l with
  | nil => rfl
  | cons x xs ih => by_cases h : p x <;> simp_all [List.filter_cons, h]

theorem find_isSome_any {α : Type} (p : α → Bool) (l : List α) :
    (l.find? p).isSome = l.any p := by
  induction l with
  | nil => rfl
  | cons x xs ih => by_cases h : p x <;> simp [List.find?_cons, h, ih]

theorem get_outisde_buffer_stable {Geom Buf : Type} (lib : GeoLib Geom Buf)
    (a : AoiState Geom Buf) (d : Int) :
    get_outisde_buffer lib (get_outisde_buffer lib a d).2.1 d
      = ((get_outisde_buffer lib a d).1, (get_outisde_buffer lib a d).2.1, 0) := by
  unfold get_outisde_buffer
  rcases h : a.buffers.lookup d with _ | b
  · simp [h, List.lookup]
  · simp [h]

theorem has_relate_found {Geom Buf : Type} (lib : GeoLib Geom Buf)
    (db : Db Geom) (st : ClientState Geom Buf) (q owner name : String)
    (t : DbTable Geom) (gcol : Column) (a a1 : AoiState Geom Buf) (g : Geom)
    (dfn : Option (DbRow Geom → Bool)) (buffer : Option Int)
    (hsplit : split2 q = .ok (owner, name))
    (hlook : db.lookupTable owner name = some t)
    (hgcol : (t.columns.filter (fun c => c.data_type == "SDO_GEOMETRY")).head?
      = some gcol)
    (haoi : st.aoi = some a)
    (hq : queryGeom lib a buffer = .ok (g, a1)) :
    has_relate lib db st q dfn buffer
      = .ok (t.rows.any (fun r => lib.anyinteract r.geom g && dfnApply dfn r),
             { registered st q with aoi := some a1 }) := by
  unfold has_relate
  simp [has_table_found db st q owner name t hsplit hlook,
        get_bcgw_geomcolumn_found db (registered st q) q owner name t gcol hsplit hlook hgcol,
        registered_idem, aoi_registered, haoi, hq,
        execRelate_found lib db q owner name t g dfn hsplit hlook,
        find_isSome_any]

theorem get_related_found {Geom Buf : Type} (lib : GeoLib Geom Buf)
    (db : Db Geom) (st : ClientState Geom Buf) (q owner name : String)
    (t : DbTable Geom) (gcol : Column) (a a1 : AoiState Geom Buf) (g : Geom)
    (dfn : Option (DbRow Geom → Bool)) (buffer : Option Int)
    (hsplit : split2 q = .ok (owner, name))
    (hlook : db.lookupTable owner name = some t)
    (hgcol : (t.columns.filter (fun c => c.data_type == "SDO_GEOMETRY")).head?
      = some gcol)
    (hmem : gcol.column_name ∈ tableCols t)
    (haoi : st.aoi = some a)
    (hq : queryGeom lib a buffer = .ok (g, a1)) :
    get_related lib db st q dfn buffer
      = .ok (some (relatedGdf lib t gcol.column_name dfn g),
             { registered st q with aoi := some a1 }) := by
  unfold get_related
  simp [has_table_found db st q owner name t hsplit hlook,
        get_bcgw_geomcolumn_found db (registered st q) q owner name t gcol hsplit hlook hgcol,
        get_bcgw_columns_found db (registered st q) q owner name t hsplit hlook,
        registered_idem, listRemove, hmem, aoi_registered, haoi, hq,
        execRelate_found lib db q owner name t g dfn hsplit hlook,
        relatedGdf]

theorem get_intersecting_found {Geom Buf : Type} (lib : GeoLib Geom Buf)
    (db : Db Geom) (st : ClientState Geom Buf) (q owner name : String)
    (t : DbTable Geom) (gcol : Column) (a a1 : AoiState Geom Buf) (g : Geom)
    (dfn : Option (DbRow Geom → Bool)) (buffer : Option Int)
    (hsplit : split2 q = .ok (owner, name))
    (hlook : db.lookupTable owner name = some t)
    (hgcol : (t.columns.filter (fun c => c.data_type == "SDO_GEOMETRY")).head?
      = some gcol)
    (hmem : gcol.column_name ∈ tableCols t)
    (haoi : st.aoi = some a)
    (hq : queryGeom lib a buffer = .ok (g, a1)) :
    get_intersecting lib db st q dfn buffer
      = .ok (some (intersectingGdf lib t gcol.column_name dfn g),
             { registered st q with aoi := some a1 }) := by
  unfold get_intersecting
  simp [has_table_found db st q owner name t hsplit hlook,
        get_bcgw_geomcolumn_found db (registered st q) q owner name t gcol hsplit hlook hgcol,
        get_bcgw_columns_found db (registered st q) q owner name t hsplit hlook,
        registered_idem, listRemove, hmem, aoi_registered, haoi, hq,
        execRelate_found lib db q owner name t g dfn hsplit hlook,
        intersectingGdf]

/-! ### Claim theorems -/

/-- C5: after `Aoi` construction the stored dataset's spatial reference is
the fixed EPSG:3005; a source already in that reference is stored unaltered,
and a source in a different reference is reprojected to the fixed one. -/
theorem C5_aoi_fixed_crs {Geom Buf : Type} (reproj : Int → Int → Geom → Geom)
    (df : Dataset Geom) :
    (@Aoi.init Geom Buf reproj df).df.crs = EPSG
    ∧ (df.crs = EPSG → (@Aoi.init Geom Buf reproj df).df = df)
    ∧ (df.crs ≠ EPSG →
        (@Aoi.init Geom Buf reproj df).df = Dataset.to_crs reproj df EPSG) := by
  unfold Aoi.init
  by_cases h : EPSG = df.crs
  · simp [h, Dataset.to_crs]
  · refine ⟨by simp [h, Dataset.to_crs], fun he => absurd he.symm h, fun _ => by simp [h]⟩

/-- Witness for C5: a dataset already in EPSG:3005 is stored unaltered, and
one in EPSG:4326 is reprojected. -/
theorem C5_aoi_fixed_crs_witness :
    (@Aoi.init Nat Int (fun _ _ g => g + 1) (⟨3005, [7]⟩ : Dataset Nat)).df = ⟨3005, [7]⟩
    ∧ (@Aoi.init Nat Int (fun _ _ g => g + 1) (⟨4326, [7]⟩ : Dataset Nat)).df
        = Dataset.to_crs (fun _ _ g => g + 1) ⟨4326, [7]⟩ EPSG :=
  ⟨(C5_aoi_fixed_crs (fun _ _ g => g + 1) ⟨3005, [7]⟩).2.1 rfl,
   (C5_aoi_fixed_crs (fun _ _ g => g + 1) ⟨4326, [7]⟩).2.2 (by decide)⟩

/-- C3: on a fresh distance, `get_outisde_buffer` stores its result under
exactly that distance key; a second call with the same distance returns that
identical cached value, leaves the state unchanged, and performs no buffer
computation; and the value is one of the two single-sided buffers for `+d`
and `-d`, the one of maximal area. -/
theorem C3_buffer_cache {Geom Buf : Type} (lib : GeoLib Geom Buf)
    (a : AoiState Geom Buf) (d : Int) (h : a.buffers.lookup d = none) :
    (get_outisde_buffer lib a d).2.1.buffers.lookup d
        = some (get_outisde_buffer lib a d).1
    ∧ get_outisde_buffer lib (get_outisde_buffer lib a d).2.1 d
        = ((get_outisde_buffer lib a d).1, (get_outisde_buffer lib a d).2.1, 0)
    ∧ ((get_outisde_buffer lib a d).1 = lib.exteriorBuffer a.df d
        ∨ (get_outisde_buffer lib a d).1 = lib.exteriorBuffer a.df (d * -1))
    ∧ lib.area (get_outisde_buffer lib a d).1
        = max (lib.area (lib.exteriorBuffer a.df d))
              (lib.area (lib.exteriorBuffer a.df (d * -1))) := by
  refine ⟨?_, get_outisde_buffer_stable lib a d, ?_, ?_⟩
  · unfold get_outisde_buffer
    simp [h, List.lookup]
  · unfold get_outisde_buffer fresh_buffer
    simp only [h]
    split
    · exact Or.inl rfl
    · exact Or.inr rfl
  · unfold get_outisde_buffer fresh_buffer
    simp only [h]
    split
    · exact (max_eq_left (le_of_lt (by assumption))).symm
    · exact (max_eq_right (le_of_not_lt (by assumption))).symm

/-- Witness for C3 at distance 4 on the concrete AOI. -/
theorem C3_buffer_cache_witness :
    exAoi.buffers.lookup 4 = none
    ∧ ((get_outisde_buffer exLib exAoi 4).2.1.buffers.lookup 4
          = some (get_outisde_buffer exLib exAoi 4).1
      ∧ get_outisde_buffer exLib (get_outisde_buffer exLib exAoi 4).2.1 4
          = ((get_outisde_buffer exLib exAoi 4).1, (get_outisde_buffer exLib exAoi 4).2.1, 0)
      ∧ ((get_outisde_buffer exLib exAoi 4).1 = exLib.exteriorBuffer exAoi.df 4
          ∨ (get_outisde_buffer exLib exAoi 4).1 = exLib.exteriorBuffer exAoi.df (4 * -1))
      ∧ exLib.area (get_outisde_buffer exLib exAoi 4).1
          = max (exLib.area (exLib.exteriorBuffer exAoi.df 4))
                (exLib.area (exLib.exteriorBuffer exAoi.df (4 * -1)))) :=
  ⟨rfl, C3_buffer_cache exLib exAoi 4 rfl⟩

/-- C10 counterexample: with single-sided buffers of equal area but distinct
value (a symmetric ring), the freshly computed buffer for distance 1 is the
`-1`-sided buffer while the one for distance `-1` is the `+1`-sided buffer,
so the fresh results for `d` and `-d` differ. -/
theorem C10_counterexample :
    (get_outisde_buffer exLibTie exAoi 1).1 ≠ (get_outisde_buffer exLibTie exAoi (-1)).1
    ∧ exLibTie.area (exLibTie.exteriorBuffer exAoi.df 1)
        = exLibTie.area (exLibTie.exteriorBuffer exAoi.df (-1)) := by
  exact ⟨by decide, by decide⟩

/-- C10 (amended): the buffers freshly computed for `d` and for `-d` always
have the same area — the larger of the two single-sided areas — and whenever
the two single-sided areas differ, the two fresh computations return the
same value; equality can fail only on an area tie. -/
theorem C10_fresh_negation_invariant {Geom Buf : Type} (lib : GeoLib Geom Buf)
    (df : Dataset Geom) (d : Int) :
    lib.area (fresh_buffer lib df d) = lib.area (fresh_buffer lib df (d * -1))
    ∧ (lib.area (lib.exteriorBuffer df d) ≠ lib.area (lib.exteriorBuffer df (d * -1)) →
        fresh_buffer lib df d = fresh_buffer lib df (d * -1)) := by
  have hdd : d * -1 * -1 = d := by ring
  unfold fresh_buffer
  rw [hdd]
  rcases lt_trichotomy (lib.area (lib.exteriorBuffer df d))
      (lib.area (lib.exteriorBuffer df (d * -1))) with hlt | heq | hgt
  · rw [if_neg (not_lt_of_gt hlt), if_pos hlt]
    exact ⟨rfl, fun _ => rfl⟩
  · rw [if_neg (by rw [heq]; exact lt_irrefl _), if_neg (by rw [heq]; exact lt_irrefl _)]
    exact ⟨heq.symm, fun hne => absurd heq hne⟩
  · rw [if_pos hgt, if_neg (not_lt_of_gt hgt)]
    exact ⟨rfl, fun _ => rfl⟩

/-- Witness for C10 (amended) at distance 5, where the two single-sided
areas differ. -/
theorem C10_fresh_negation_invariant_witness :
    exLib.area (exLib.exteriorBuffer exAoi.df 5) ≠ exLib.area (exLib.exteriorBuffer exAoi.df (5 * -1))
    ∧ fresh_buffer exLib exAoi.df 5 = fresh_buffer exLib exAoi.df (5 * -1) :=
  ⟨by decide, (C10_fresh_negation_invariant exLib exAoi.df 5).2 (by decide)⟩

/-- C4: when a `has_table` call performs the catalog lookup (one catalog
query) and reports true, the name is recorded in the registry, and a
subsequent `has_table` call for the same name — on that state or any state
whose registry holds the name — returns true with no catalog query and no
state change. -/
theorem C4_has_table_memoized {Geom Buf : Type} (db : Db Geom)
    (st st2 : ClientState Geom Buf) (db_table : String)
    (h : has_table db st db_table = (.ok (true, st2), 1)) :
    db_table ∈ st2.table_dict
    ∧ has_table db st2 db_table = (.ok (true, st2), 0) := by
  unfold has_table at h ⊢
  by_cases hm : db_table ∈ st.table_dict
  · simp [hm] at h
  · simp only [hm, if_false] at h
    rcases hs : split2 db_table with e | ⟨owner, table⟩ <;> rw [hs] at h
    · simp at h
    · by_cases hc : catalogCount db owner table > 0
      · simp only [hc, if_pos, Prod.mk.injEq, Except.ok.injEq, true_and] at h
        obtain ⟨hst, -⟩ := h
        subst hst
        constructor
        · exact List.mem_cons_self _ _
        · simp
      · simp [hc] at h

/-- Witness for C4: confirming `W.T` against the concrete catalog issues one
query, records the name, and the repeat call issues none. -/
theorem C4_has_table_memoized_witness :
    has_table exDb exSt "W.T" = (.ok (true, exSt1), 1)
    ∧ ("W.T" ∈ exSt1.table_dict
        ∧ has_table exDb exSt1 "W.T" = (.ok (true, exSt1), 0)) :=
  ⟨rfl, C4_has_table_memoized exDb exSt exSt1 "W.T" rfl⟩

/-- C9: on any reachable registry (whose keys all split into exactly two
parts), a table name that does not split into exactly `OWNER.TABLE` makes
`has_table` fail with the `ValueError` of the unpacking, issuing zero
catalog queries, and the column-introspection operations propagate the same
error. -/
theorem C9_malformed_table_name {Geom Buf : Type} (db : Db Geom)
    (st : ClientState Geom Buf) (db_table : String)
    (hwf : ∀ x ∈ st.table_dict, (pySplit x).length = 2)
    (hbad : (pySplit db_table).length ≠ 2) :
    has_table db st db_table = (.error (.valueError (unpackMsg db_table)), 0)
    ∧ get_bcgw_geomcolumn db st db_table
        = .error (.valueError (unpackMsg db_table))
    ∧ get_bcgw_columns db st db_table
        = .error (.valueError (unpackMsg db_table)) := by
  have hm : db_table ∉ st.table_dict := fun hmem => hbad (hwf db_table hmem)
  have ht : has_table db st db_table
      = (.error (.valueError (unpackMsg db_table)), 0) := by
    unfold has_table
    simp [hm, split2_bad db_table hbad]
  refine ⟨ht, ?_, ?_⟩
  · unfold get_bcgw_geomcolumn
    rw [ht]
  · unfold get_bcgw_columns
    rw [ht]

/-- Witness for C9: the dot-free name `WT` on a fresh client. -/
theorem C9_malformed_table_name_witness :
    has_table exDb exSt "WT" = (.error (.valueError (unpackMsg "WT")), 0)
    ∧ get_bcgw_geomcolumn exDb exSt "WT" = .error (.valueError (unpackMsg "WT"))
    ∧ get_bcgw_columns exDb exSt "WT" = .error (.valueError (unpackMsg "WT")) :=
  C9_malformed_table_name exDb exSt "WT" (by simp [exSt]) (by decide)



/-- C2 (code bug): for a missing table, `has_relate` raises the descriptive
`Exception` naming the table, but `get_bcgw_geomcolumn` and
`get_bcgw_columns` instead raise `NameError` — their guard's message refers
to the local `table`, which is unbound before the split — so the error names
no table. -/
theorem C2_guard_divergence :
    has_relate exLib exDb exSt "W.MISSING" none none
        = .error (.exc "Table W.MISSING does not exist for this user")
    ∧ get_related exLib exDb exSt "W.MISSING" none none
        = .error (.exc "Table W.MISSING does not exist for this user")
    ∧ get_intersecting exLib exDb exSt "W.MISSING" none none
        = .error (.exc "Table W.MISSING does not exist for this user")
    ∧ get_bcgw_geomcolumn exDb exSt "W.MISSING"
        = .error (.nameError "name 'table' is not defined")
    ∧ get_bcgw_columns exDb exSt "W.MISSING"
        = .error (.nameError "name 'table' is not defined") :=
  ⟨rfl, rfl, rfl, rfl, rfl⟩

theorem queryGeom_some {Geom Buf : Type} (lib : GeoLib Geom Buf)
    (a : AoiState Geom Buf) (d : Int) :
    queryGeom lib a (some d)
      = .ok (lib.bufGeom (get_outisde_buffer lib a d).1,
             (get_outisde_buffer lib a d).2.1) := by
  unfold queryGeom
  rcases h : get_outisde_buffer lib a d with ⟨b, a1, n⟩
  simp [h]

/-- C1 counterexample: in the concrete database, the row `("r1", 7)` of
`W.T` satisfies the spatial interaction predicate against the AOI geometry,
yet `has_relate` with a filter excluding every row returns false — while the
same call without a filter returns true — so the boolean result is not
determined by the spatial predicate alone and does depend on the filter. -/
theorem C1_counterexample :
    (⟨["r1"], 7⟩ : DbRow Nat) ∈ exTable.rows
    ∧ exLib.anyinteract (⟨["r1"], 7⟩ : DbRow Nat).geom 7 = true
    ∧ has_relate exLib exDb exSt "W.T" (some (fun _ => false)) none
        = .ok (false, exSt1)
    ∧ has_relate exLib exDb exSt "W.T" none none = .ok (true, exSt1) :=
  ⟨by decide, rfl, rfl, rfl⟩

/-- C1 (amended): for a resolvable table with a geometry column and an
attached nonempty AOI, `has_relate` returns true exactly when at least one
row satisfies the spatial interaction predicate against the bound geometry
(the AOI geometry, or the buffer ring when a distance is supplied)
conjoined with the filter fragment when one is supplied. -/
theorem C1_has_relate_matches_predicate_and_filter {Geom Buf : Type}
    (lib : GeoLib Geom Buf) (db : Db Geom) (st : ClientState Geom Buf)
    (q owner name : String) (t : DbTable Geom) (gcol : Column)
    (a a1 : AoiState Geom Buf) (g : Geom)
    (dfn : Option (DbRow Geom → Bool)) (buffer : Option Int)
    (hsplit : split2 q = .ok (owner, name))
    (hlook : db.lookupTable owner name = some t)
    (hgcol : (t.columns.filter (fun c => c.data_type == "SDO_GEOMETRY")).head?
      = some gcol)
    (haoi : st.aoi = some a)
    (hq : queryGeom lib a buffer = .ok (g, a1)) :
    has_relate lib db st q dfn buffer
      = .ok (t.rows.any (fun r => lib.anyinteract r.geom g && dfnApply dfn r),
             { registered st q with aoi := some a1 }) :=
  has_relate_found lib db st q owner name t gcol a a1 g dfn buffer
    hsplit hlook hgcol haoi hq

/-- Witness for C1 (amended) on the concrete database. -/
theorem C1_has_relate_matches_predicate_and_filter_witness :
    has_relate exLib exDb exSt "W.T" none none
      = .ok (exTable.rows.any (fun r => exLib.anyinteract r.geom 7 && dfnApply none r),
             { registered exSt "W.T" with aoi := some exAoi }) :=
  C1_has_relate_matches_predicate_and_filter exLib exDb exSt "W.T" "W" "T"
    exTable ⟨"SHAPE", "SDO_GEOMETRY"⟩ exAoi exAoi 7 none none rfl rfl rfl rfl rfl

/-- C7: for a resolvable table with a geometry column among its reported
columns and an attached nonempty AOI, `get_related` and `get_intersecting`
both return (without error) a frame whose row count equals the number of
rows satisfying the spatial predicate conjoined with the filter; zero
matches yield an empty frame, not an error. -/
theorem C7_row_counts {Geom Buf : Type} (lib : GeoLib Geom Buf) (db : Db Geom)
    (st : ClientState Geom Buf) (q owner name : String) (t : DbTable Geom)
    (gcol : Column) (a : AoiState Geom Buf) (g0 : Geom) (gs : List Geom)
    (dfn : Option (DbRow Geom → Bool))
    (hsplit : split2 q = .ok (owner, name))
    (hlook : db.lookupTable owner name = some t)
    (hgcol : (t.columns.filter (fun c => c.data_type == "SDO_GEOMETRY")).head?
      = some gcol)
    (hmem : gcol.column_name ∈ tableCols t)
    (haoi : st.aoi = some a)
    (hg : a.df.geoms = g0 :: gs) :
    get_related lib db st q dfn none
      = .ok (some (relatedGdf lib t gcol.column_name dfn g0),
             { registered st q with aoi := some a })
    ∧ (relatedGdf lib t gcol.column_name dfn g0).rows.length
        = (t.rows.filter (fun r => lib.anyinteract r.geom g0 && dfnApply dfn r)).length
    ∧ get_intersecting lib db st q dfn none
      = .ok (some (intersectingGdf lib t gcol.column_name dfn g0),
             { registered st q with aoi := some a })
    ∧ (intersectingGdf lib t gcol.column_name dfn g0).rows.length
        = (t.rows.filter (fun r => lib.anyinteract r.geom g0 && dfnApply dfn r)).length := by
  have hq : queryGeom lib a none = .ok (g0, a) := by
    unfold queryGeom AoiState.get_wkb_geom
    rw [hg]
  exact ⟨get_related_found lib db st q owner name t gcol a a g0 dfn none
      hsplit hlook hgcol hmem haoi hq,
    by simp [relatedGdf],
    get_intersecting_found lib db st q owner name t gcol a a g0 dfn none
      hsplit hlook hgcol hmem haoi hq,
    by simp [intersectingGdf]⟩

/-- Witness for C7 on the concrete database (one of two rows matches). -/
theorem C7_row_counts_witness :
    get_related exLib exDb exSt "W.T" none none
      = .ok (some (relatedGdf exLib exTable "SHAPE" none 7),
             { registered exSt "W.T" with aoi := some exAoi })
    ∧ (relatedGdf exLib exTable "SHAPE" none 7).rows.length
        = (exTable.rows.filter (fun r => exLib.anyinteract r.geom 7 && dfnApply none r)).length
    ∧ get_intersecting exLib exDb exSt "W.T" none none
      = .ok (some (intersectingGdf exLib exTable "SHAPE" none 7),
             { registered exSt "W.T" with aoi := some exAoi })
    ∧ (intersectingGdf exLib exTable "SHAPE" none 7).rows.length
        = (exTable.rows.filter (fun r => exLib.anyinteract r.geom 7 && dfnApply none r)).length :=
  C7_row_counts exLib exDb exSt "W.T" "W" "T" exTable ⟨"SHAPE", "SDO_GEOMETRY"⟩
    exAoi 7 [] none rfl rfl rfl (by decide) rfl rfl

/-- C6: `get_intersect_local` returns `None` exactly when its `has_relate`
check (made without the buffer argument) is false — in the state left by
that check, which registers the table; when the check is true it returns
the client-side overlay of the `get_related` frame with the AOI frame, or
with the buffer ring reshaped into a one-row geometry frame when a buffer
distance is supplied. -/
theorem C6_intersect_local_overlay {Geom Buf : Type} (lib : GeoLib Geom Buf)
    (db : Db Geom) (st : ClientState Geom Buf) (q owner name : String)
    (t : DbTable Geom) (gcol : Column) (a : AoiState Geom Buf) (g0 : Geom)
    (gs : List Geom) (dfn : Option (DbRow Geom → Bool))
    (hsplit : split2 q = .ok (owner, name))
    (hlook : db.lookupTable owner name = some t)
    (hgcol : (t.columns.filter (fun c => c.data_type == "SDO_GEOMETRY")).head?
      = some gcol)
    (hmem : gcol.column_name ∈ tableCols t)
    (haoi : st.aoi = some a)
    (hg : a.df.geoms = g0 :: gs) :
    (t.rows.any (fun r => lib.anyinteract r.geom g0 && dfnApply dfn r) = false →
      ∀ buffer, get_intersect_local lib db st q dfn buffer
        = .ok (none, { registered st q with aoi := some a }))
    ∧ (t.rows.any (fun r => lib.anyinteract r.geom g0 && dfnApply dfn r) = true →
        get_intersect_local lib db st q dfn none
          = .ok (some (lib.overlay (relatedGdf lib t gcol.column_name dfn g0) (aoiGdf a)),
                 { registered st q with aoi := some a })
        ∧ ∀ d : Int,
            get_intersect_local lib db st q dfn (some d)
              = .ok (some (lib.overlay
                    (relatedGdf lib t gcol.column_name dfn
                      (lib.bufGeom (get_outisde_buffer lib a d).1))
                    (bufferGdf lib (get_outisde_buffer lib a d).1)),
                 { registered st q with aoi := some (get_outisde_buffer lib a d).2.1 })) := by
  have hq0 : queryGeom lib a none = .ok (g0, a) := by
    unfold queryGeom AoiState.get_wkb_geom
    rw [hg]
  have hrel := has_relate_found lib db st q owner name t gcol a a g0 dfn none
    hsplit hlook hgcol haoi hq0
  have hmem1 : q ∈ ({ registered st q with aoi := some a } : ClientState Geom Buf).table_dict :=
    mem_registered st q
  constructor
  · intro hfalse buffer
    unfold get_intersect_local
    rw [hrel, hfalse]
    simp
  · intro htrue
    constructor
    · have hreld := get_related_found lib db
        ({ registered st q with aoi := some a }) q owner name t gcol a a g0 dfn none
        hsplit hlook hgcol hmem rfl hq0
      rw [registered_of_mem _ _ hmem1] at hreld
      unfold get_intersect_local
      rw [hrel, htrue]
      simp [hreld]
    · intro d
      have hreld := get_related_found lib db
        ({ registered st q with aoi := some a }) q owner name t gcol a
        ((get_outisde_buffer lib a d).2.1)
        (lib.bufGeom (get_outisde_buffer lib a d).1) dfn (some d)
        hsplit hlook hgcol hmem rfl (queryGeom_some lib a d)
      rw [registered_of_mem _ _ hmem1] at hreld
      unfold get_intersect_local
      rw [hrel, htrue]
      simp [hreld, get_outisde_buffer_stable]

/-- Witness for C6: the related case on the concrete database. -/
theorem C6_intersect_local_overlay_witness :
    get_intersect_local exLib exDb exSt "W.T" none none
      = .ok (some (exLib.overlay (relatedGdf exLib exTable "SHAPE" none 7) (aoiGdf exAoi)),
             { registered exSt "W.T" with aoi := some exAoi }) :=
  ((C6_intersect_local_overlay exLib exDb exSt "W.T" "W" "T" exTable
      ⟨"SHAPE", "SDO_GEOMETRY"⟩ exAoi 7 [] none rfl rfl rfl (by decide) rfl rfl).2 rfl).1

/-- C8 counterexample: `get_bcgw_columns` passes the owner fragment through
the bind dictionary as the named parameter `owner` — not `wkb` or `srid` —
so it is not true that owner/table fragments are always interpolated with no
bind parameters. -/
theorem C8_counterexample :
    (@get_bcgw_columns_stmt Nat "WHSE" "TAB").binds
        = [("owner", BindVal.strVal "WHSE")]
    ∧ ¬ ("owner" = "wkb" ∨ "owner" = "srid") :=
  ⟨rfl, by decide⟩

/-- C8 (amended): the three spatial queries interpolate the table name into
the SQL text and carry exactly the named binds `wkb` (the AOI or buffer
geometry) and `srid`; `has_table` and `get_bcgw_geomcolumn` interpolate both
owner and table with no binds at all; `get_bcgw_columns` interpolates the
table name but passes the owner as the single named bind `owner`. -/
theorem C8_interpolation_policy {Geom : Type} (table geom_column columns_str
    owner tname : String) (dq : Option String) (wkb : Geom) (srid : Int) :
    ((has_relate_stmt table geom_column dq wkb srid).binds
        = [("wkb", BindVal.wkbVal wkb), ("srid", BindVal.intVal srid)]
      ∧ ∃ pre post, (has_relate_stmt table geom_column dq wkb srid).text
          = pre ++ table ++ post)
    ∧ ((get_related_stmt table geom_column columns_str dq wkb srid).binds
        = [("wkb", BindVal.wkbVal wkb), ("srid", BindVal.intVal srid)]
      ∧ ∃ pre post, (get_related_stmt table geom_column columns_str dq wkb srid).text
          = pre ++ table ++ post)
    ∧ ((get_intersecting_stmt table geom_column columns_str dq wkb srid).binds
        = [("wkb", BindVal.wkbVal wkb), ("srid", BindVal.intVal srid)]
      ∧ ∃ pre post, (get_intersecting_stmt table geom_column columns_str dq wkb srid).text
          = pre ++ table ++ post)
    ∧ ((@has_table_stmt Geom owner tname).binds = []
      ∧ ∃ pre mid post, (@has_table_stmt Geom owner tname).text
          = pre ++ owner ++ mid ++ tname ++ post)
    ∧ ((@get_bcgw_geomcolumn_stmt Geom owner tname).binds = []
      ∧ ∃ pre mid post, (@get_bcgw_geomcolumn_stmt Geom owner tname).text
          = pre ++ owner ++ mid ++ tname ++ post)
    ∧ ((@get_bcgw_columns_stmt Geom owner tname).binds
        = [("owner", BindVal.strVal owner)]
      ∧ ∃ pre post, (@get_bcgw_columns_stmt Geom owner tname).text
          = pre ++ tname ++ post) := by
  refine ⟨⟨rfl, ?_⟩, ⟨rfl, ?_⟩, ⟨rfl, ?_⟩, ⟨rfl, ?_⟩, ⟨rfl, ?_⟩, ⟨rfl, ?_⟩⟩
  · refine ⟨"SELECT ROWNUM FROM ", ?_, ?_⟩
    · exact " WHERE SDO_RELATE (" ++ geom_column
        ++ ", SDO_GEOMETRY(:wkb,:srid),'mask=ANYINTERACT') = 'TRUE' and ROWNUM=1"
        ++ (match dq with | none => "" | some d => " AND " ++ d)
    · cases dq <;>
        simp only [has_relate_stmt, String.append_assoc, String.append_empty]
  · refine ⟨"SELECT " ++ columns_str ++ ",sdo_util.to_wkbgeometry("
        ++ geom_column ++ ") wkb_geom FROM ", ?_, ?_⟩
    · exact " b WHERE SDO_RELATE (b." ++ geom_column
        ++ ", SDO_GEOMETRY(:wkb,:srid),'mask=ANYINTERACT') = 'TRUE'"
        ++ (match dq with | none => "" | some d => " AND " ++ d)
    · cases dq <;>
        simp only [get_related_stmt, String.append_assoc, String.append_empty]
  · refine ⟨"\n            SELECT \n                " ++ columns_str
        ++ ",sdo_util.to_wkbgeometry(sdo_geom.sdo_intersection(" ++ geom_column
        ++ ",  \n                SDO_GEOMETRY(:wkb,:srid), 1)) wkb_geom \n            FROM ", ?_, ?_⟩
    · exact " \n            WHERE SDO_RELATE (" ++ geom_column
        ++ ", SDO_GEOMETRY(:wkb,:srid),'mask=ANYINTERACT') = 'TRUE'\n            "
        ++ (match dq with | none => "" | some d => "AND " ++ d)
    · cases dq <;>
        simp only [get_intersecting_stmt, String.append_assoc, String.append_empty]
  · refine ⟨"\n            SELECT SUM(OBJ_CNT) from (\n            SELECT count(ROWNUM) obj_cnt FROM all_views where owner = '",
      "' and view_name = '", ?_, ?_⟩
    · exact "' UNION\n            SELECT count(ROWNUM) obj_cnt FROM all_tables where owner = '"
        ++ owner ++ "' and table_name = '" ++ tname ++ "')\n            "
    · simp only [has_table_stmt, String.append_assoc]
  · refine ⟨"SELECT COLUMN_NAME from all_tab_columns where OWNER = '",
      "'             AND TABLE_NAME = '",
      "' AND DATA_TYPE = 'SDO_GEOMETRY'", ?_⟩
    simp only [get_bcgw_geomcolumn_stmt, String.append_assoc]
  · refine ⟨"\n            SELECT COLUMN_NAME from all_tab_columns \n            where OWNER = :owner\n                AND TABLE_NAME = '",
      "'\n                AND COLUMN_NAME<>'SE_ANNO_CAD_DATA'", ?_⟩
    simp only [get_bcgw_columns_stmt, String.append_assoc]

end Sporacle
